import Mathlib

/-!
Shallow embedding of `src/media_controller.py` (class `MediaController`).

Modelling conventions:
  * Wall-clock times and positions (`time.time()` results, `last_position`,
    `playback_start_time`, metadata durations) are rationals (`Rat`); every
    operation that reads the clock takes the current time `now` explicitly.
  * External collaborators are parameters: `ex : String → Bool` models
    `os.path.exists`, `eu : String → String` models `os.path.expanduser`,
    `ab : String → String` models `os.path.abspath`, and
    `md : String → Rat` models the duration that `load_metadata` stores
    (`load_metadata` always ends with a `duration` key, 0 in its fallbacks;
    title/artist/album are not needed by any verified property and are not
    modelled).  `random.shuffle`'s randomness source is a function
    `rand : Nat → Nat` giving the chosen index for each Fisher-Yates step.
  * Side effects other than field mutation (launching the external player,
    notifications, `save_config`) are returned as an `Effect` list.
  * Python exceptions that escape a method are modelled by `Option`:
    `none` means the call raised.
  * `print` calls are not modelled (they change no state).
-/

namespace MediaPlayer

/-- External side effects a method emits, in order. -/
inductive Effect
  | playerPlay (path : String)
  | playerPause
  | playerStop
  | playerVolume (v : Int)
  | notify (msg : String)
  | saveConfig
deriving Repr, DecidableEq

/-- The mutable fields of `MediaController` (`__init__`, lines 16-28).
`metadata` is modelled by the `duration` entry only: `metadata_duration = none`
is the initial empty dict (so `metadata.get('duration', 0)` yields 0),
`some d` is a dict whose `duration` entry is `d`. -/
structure MediaController where
  current_file : String
  metadata_duration : Option Rat
  is_playing : Bool
  volume : Int
  playlist : List String
  current_track_index : Int
  repeat_mode : Bool
  shuffle_mode : Bool
  last_position : Rat
  playback_start_time : Rat
  paused_time : Rat
deriving Repr, DecidableEq

namespace MediaController

/-- The field values `__init__` assigns before calling `load_config`
(lines 17-27): the documented defaults. -/
def initState : MediaController where
  current_file := ""
  metadata_duration := none
  is_playing := false
  volume := 50
  playlist := []
  current_track_index := -1
  repeat_mode := false
  shuffle_mode := false
  last_position := 0
  playback_start_time := 0
  paused_time := 0

/-- The persisted-state record when the config file parses as a JSON object:
each field is present (`some`) or absent (`none`, so `config.get` falls back
to its default). -/
structure ConfigData where
  current_file : Option String
  last_position : Option Rat
  volume : Option Int
  playlist : Option (List String)
  current_track_index : Option Int
  repeat_mode : Option Bool
  shuffle_mode : Option Bool
deriving Repr, DecidableEq

/-- The possible contents of the config file as `load_config` distinguishes
them: absent, present but not decodable as JSON (`json.JSONDecodeError`),
decodable but not a JSON object (so `config.get(...)` raises
`AttributeError`, which `load_config` does not catch), or a JSON object. -/
inductive ConfigFile
  | absent
  | undecodable
  | nonObject
  | object (c : ConfigData)
deriving Repr, DecidableEq

/-- `load_config` (lines 244-260).  `none` means the call raised: the only
caught exception is `json.JSONDecodeError`; a decodable non-object makes
`config.get` raise `AttributeError`, which propagates. -/
def load_config (s : MediaController) (cf : ConfigFile) : Option MediaController :=
  match cf with
  | ConfigFile.absent => some s
  | ConfigFile.undecodable => some s
  | ConfigFile.nonObject => none
  | ConfigFile.object c =>
      some { s with
        current_file := c.current_file.getD ""
        last_position := c.last_position.getD 0
        volume := c.volume.getD 50
        playlist := c.playlist.getD []
        current_track_index := c.current_track_index.getD (-1)
        repeat_mode := c.repeat_mode.getD false
        shuffle_mode := c.shuffle_mode.getD false }

/-- `__init__` (lines 16-30): default fields, then `load_config`. -/
def mkController (cf : ConfigFile) : Option MediaController :=
  load_config initState cf

/-- Python list indexing `l[i]`: negative indices count from the end;
`none` is an `IndexError`. -/
def pyIndex (l : List String) (i : Int) : Option String :=
  if 0 ≤ i then l[i.toNat]?
  else if 0 ≤ i + l.length then l[(i + l.length).toNat]?
  else none

/-- Result of the file-selection block at the top of `play` (lines 51-59). -/
inductive PlayStage1
  | raised
  | earlyReturn (s : MediaController)
  | proceed (s : MediaController)
deriving Repr

/-- Lines 51-59 of `play`: choose `current_file`.  `if file_path:` is Python
truthiness, so `None` and `""` both fall through to the `elif` chain. -/
def playStage1 (eu : String → String) (s : MediaController)
    (file_path : Option String) : PlayStage1 :=
  if file_path.getD "" ≠ "" then
    PlayStage1.proceed { s with
      current_file := eu (file_path.getD "")
      current_track_index := -1
      last_position := 0 }
  else if s.playlist ≠ [] ∧ s.current_track_index ≠ -1 then
    match pyIndex s.playlist s.current_track_index with
    | some f => PlayStage1.proceed { s with current_file := f }
    | none => PlayStage1.raised
  else if s.current_file = "" then
    PlayStage1.earlyReturn s
  else
    PlayStage1.proceed s

/-- `play` (lines 50-71).  After file selection, a failed
`os.path.exists` check returns early with no further mutation and no
side effects; otherwise the external player is launched, `is_playing`
is set, `playback_start_time = now - last_position`, metadata is
reloaded, a notification is sent and the config is saved. -/
def play (ex : String → Bool) (eu : String → String) (md : String → Rat)
    (now : Rat) (s : MediaController) (file_path : Option String) :
    Option (MediaController × List Effect) :=
  match playStage1 eu s file_path with
  | PlayStage1.raised => none
  | PlayStage1.earlyReturn s1 => some (s1, [])
  | PlayStage1.proceed s1 =>
      if ex s1.current_file = false then
        some (s1, [])
      else
        some ({ s1 with
                  is_playing := true
                  playback_start_time := now - s1.last_position
                  metadata_duration := some (md s1.current_file) },
              [Effect.playerPlay s1.current_file, Effect.notify "Playing",
               Effect.saveConfig])

/-- `pause` (lines 73-80): no-op unless playing; otherwise checkpoints
`last_position += now - playback_start_time`. -/
def pause (now : Rat) (s : MediaController) : MediaController × List Effect :=
  if s.is_playing then
    ({ s with
        is_playing := false
        paused_time := now
        last_position := s.last_position + (now - s.playback_start_time) },
     [Effect.playerPause, Effect.notify "Paused", Effect.saveConfig])
  else (s, [])

/-- `stop` (lines 82-88): guarded by `if self.is_playing`, so it is a no-op
when not playing; otherwise resets `last_position` to 0. -/
def stop (s : MediaController) : MediaController × List Effect :=
  if s.is_playing then
    ({ s with is_playing := false, last_position := 0 },
     [Effect.playerStop, Effect.notify "Stopped", Effect.saveConfig])
  else (s, [])

/-- How a `next_track` / `prev_track` call ended. -/
inductive NavOutcome
  | noPlaylist
  | finished
  | played
deriving Repr, DecidableEq

/-- `next_track` (lines 90-105).  The shuffle branch computes the same
index as the sequential branch (lines 95-98), so both are one expression.
When the new index is 0 and repeat is off, `stop()` runs and playback does
not continue; otherwise `play()` is called with no argument. -/
def next_track (ex : String → Bool) (eu : String → String) (md : String → Rat)
    (now : Rat) (s : MediaController) : Option (MediaController × NavOutcome) :=
  if s.playlist = [] then some (s, NavOutcome.noPlaylist)
  else
    let newIdx := (s.current_track_index + 1) % (s.playlist.length : Int)
    let s1 := { s with current_track_index := newIdx }
    if newIdx = 0 ∧ s.repeat_mode = false then
      some ((stop s1).1, NavOutcome.finished)
    else
      match play ex eu md now s1 none with
      | some (s2, _) => some (s2, NavOutcome.played)
      | none => none

/-- `prev_track` (lines 107-113): unconditional wrap, then `play()`. -/
def prev_track (ex : String → Bool) (eu : String → String) (md : String → Rat)
    (now : Rat) (s : MediaController) : Option (MediaController × NavOutcome) :=
  if s.playlist = [] then some (s, NavOutcome.noPlaylist)
  else
    let newIdx :=
      (s.current_track_index - 1 + s.playlist.length) % (s.playlist.length : Int)
    let s1 := { s with current_track_index := newIdx }
    match play ex eu md now s1 none with
    | some (s2, _) => some (s2, NavOutcome.played)
    | none => none

/-- `get_playback_info` (lines 141-150): returns `(current, total)` without
mutating any field; the cap at `total` only happens inside the
`if self.is_playing` branch. -/
def get_playback_info (now : Rat) (s : MediaController) : Rat × Rat :=
  let total := s.metadata_duration.getD 0
  if s.is_playing then
    let cur := s.last_position + (now - s.playback_start_time)
    (if cur > total ∧ total > 0 then total else cur, total)
  else
    (s.last_position, total)

/-- `set_volume` (lines 152-155). -/
def set_volume (s : MediaController) (level : Int) : MediaController × List Effect :=
  let v := max 0 (min 100 level)
  ({ s with volume := v },
   [Effect.playerVolume v, Effect.saveConfig])

/-- Python `str.strip()`: drop leading and trailing whitespace. -/
def pyStrip (s : String) : String :=
  String.mk
    (((s.data.dropWhile Char.isWhitespace).reverse.dropWhile
        Char.isWhitespace).reverse)

/-- Python `str.startswith('#')`. -/
def startsWithHash (s : String) : Bool :=
  match s.data with
  | [] => false
  | c :: _ => c == '#'

/-- The lines of a playlist file that survive the loop of `load_playlist`
(lines 208-211): stripped, non-empty, not starting with the comment marker. -/
def keptLines (lines : List String) : List String :=
  (lines.map pyStrip).filter
    (fun l => !(l == "") && !(startsWithHash l))

/-- `load_playlist` (lines 200-218) on the contents of an existing playlist
file (the not-found early return happens before any mutation and is outside
this model).  The playlist is rebuilt from the kept lines via
`os.path.abspath`; the index is set only in the non-empty branch. -/
def load_playlist (ab : String → String) (s : MediaController)
    (lines : List String) : MediaController × List Effect :=
  let pl := (keptLines lines).map ab
  if pl ≠ [] then
    ({ s with playlist := pl, current_track_index := 0 }, [Effect.saveConfig])
  else
    ({ s with playlist := pl }, [Effect.saveConfig])

/-- One CPython `random.shuffle` step: `x[i], x[j] = x[j], x[i]`. -/
def listSwap (l : List String) (i j : Nat) : List String :=
  match l[i]?, l[j]? with
  | some a, some b => (l.set i b).set j a
  | _, _ => l

/-- `random.shuffle` walks `i = len-1, ..., 1`, swapping `x[i]` with a
randomly chosen `x[j]`, `0 ≤ j ≤ i`; `rand i` supplies that choice.
`fyAux rand l k` performs the swaps for `i = k, k-1, ..., 1`. -/
def fyAux (rand : Nat → Nat) : List String → Nat → List String
  | l, 0 => l
  | l, Nat.succ i => fyAux rand (listSwap l (i + 1) (min (rand (i + 1)) (i + 1))) i

/-- `random.shuffle self.playlist` with randomness source `rand`. -/
def randomShuffle (rand : Nat → Nat) (l : List String) : List String :=
  fyAux rand l (l.length - 1)

/-- `shuffle_playlist` (lines 227-232). -/
def shuffle_playlist (rand : Nat → Nat) (s : MediaController) :
    MediaController × List Effect :=
  ({ s with playlist := randomShuffle rand s.playlist, current_track_index := 0 },
   [Effect.saveConfig])

end MediaController

/-! ### Concrete collaborators and states used to evaluate the model -/

/-- A filesystem on which every path exists. -/
def exAll : String → Bool := fun _ => true

/-- A filesystem on which no path exists. -/
def exNone : String → Bool := fun _ => false

/-- `os.path.expanduser` / `os.path.abspath` on paths with no `~` and
already absolute: the identity. -/
def idPath : String → String := fun p => p

/-- A metadata collaborator reporting duration 0 for every file. -/
def durZero : String → Rat := fun _ => 0

/-- A metadata collaborator reporting duration 100 for every file. -/
def dur100 : String → Rat := fun _ => 100

/-- A paused controller holding a file, with checkpoint `p` (fresh state
after a session that paused at position `p`). -/
def pausedAt (p : Rat) : MediaController :=
  { MediaController.initState with current_file := "a.mp3", last_position := p }

/-- Runs `play()` (no argument), `pause()`, `play()`, `pause()` at times
`t0, t1, t2, t3` from the paused state with checkpoint `p`, on a filesystem
where the file exists, and returns the final `last_position`; `none` if a
call raised. -/
def playPausePlayPause (p t0 t1 t2 t3 : Rat) : Option Rat :=
  match MediaController.play exAll idPath durZero t0 (pausedAt p) none with
  | none => none
  | some (s1, _) =>
      let s2 := (MediaController.pause t1 s1).1
      match MediaController.play exAll idPath durZero t2 s2 none with
      | none => none
      | some (s3, _) => some ((MediaController.pause t3 s3).1.last_position)

/-- The state reached by `play()` at time 0 on a 100-second file followed by
`pause()` at time 200: a paused controller whose stored checkpoint exceeds
the metadata duration. -/
def overrunState : MediaController :=
  match MediaController.play exAll idPath dur100 0 (pausedAt 0) none with
  | some (s1, _) => (MediaController.pause 200 s1).1
  | none => MediaController.initState

/-- A playing controller on a 100-second file started at time 0. -/
def playingOverrun : MediaController :=
  { MediaController.initState with
      current_file := "a.mp3"
      is_playing := true
      metadata_duration := some 100
      last_position := 0
      playback_start_time := 0 }

/-- A paused controller with checkpoint 5. -/
def pausedFive : MediaController :=
  { MediaController.initState with current_file := "a.mp3", last_position := 5 }

/-- A three-track playlist with no selection (`current_track_index = -1`,
as `play(file_path)` leaves it). -/
def threeTracksNoSelection : MediaController :=
  { MediaController.initState with
      playlist := ["a.mp3", "b.mp3", "c.mp3"], current_track_index := -1 }

/-- A three-track playlist positioned on its first track. -/
def threeTracksAtZero : MediaController :=
  { MediaController.initState with
      playlist := ["a.mp3", "b.mp3", "c.mp3"], current_track_index := 0 }

/-- A persisted-state record whose only entry is `volume: 150`. -/
def volume150Config : MediaController.ConfigData :=
  { current_file := none
    last_position := none
    volume := some 150
    playlist := none
    current_track_index := none
    repeat_mode := none
    shuffle_mode := none }

/-- A controller whose stale selection is index 2. -/
def idxTwoState : MediaController :=
  { MediaController.initState with current_track_index := 2 }

/-! ### Helper lemmas about the Fisher-Yates embedding -/

lemma cons_set_perm (x b : String) :
    ∀ (xs : List String) (j : Nat), xs[j]? = some b →
      List.Perm (b :: xs.set j x) (x :: xs) := by
  intro xs
  induction xs with
  | nil => intro j h; simp at h
  | cons y ys ih =>
      intro j h
      cases j with
      | zero =>
          simp at h
          subst h
          simpa using List.Perm.swap x y ys
      | succ k =>
          simp at h
          have hperm := ih k h
          have h1 : List.Perm (b :: y :: ys.set k x) (y :: b :: ys.set k x) :=
            List.Perm.swap y b (ys.set k x)
          have h2 : List.Perm (y :: b :: ys.set k x) (y :: x :: ys) :=
            List.Perm.cons y hperm
          have h3 : List.Perm (y :: x :: ys) (x :: y :: ys) :=
            List.Perm.swap x y ys
          simpa using (h1.trans h2).trans h3

lemma set_set_perm :
    ∀ (l : List String) (i j : Nat) (a b : String),
      l[i]? = some a → l[j]? = some b →
      List.Perm ((l.set i b).set j a) l := by
  intro l
  induction l with
  | nil => intro i j a b ha hb; simp at ha
  | cons x xs ih =>
      intro i j a b ha hb
      cases i with
      | zero =>
          simp at ha
          subst ha
          cases j with
          | zero =>
              simp at hb
              subst hb
              simp
          | succ k =>
              simp at hb
              simpa using cons_set_perm x b xs k hb
      | succ m =>
          simp at ha
          cases j with
          | zero =>
              simp at hb
              subst hb
              simpa using cons_set_perm x a xs m ha
          | succ k =>
              simp at hb
              simpa using List.Perm.cons x (ih m k a b ha hb)

lemma listSwap_perm (l : List String) (i j : Nat) :
    List.Perm (MediaController.listSwap l i j) l := by
  unfold MediaController.listSwap
  split
  · rename_i a b hi hj
    exact set_set_perm l i j a b hi hj
  · exact List.Perm.refl l

lemma fyAux_perm (rand : Nat → Nat) :
    ∀ (k : Nat) (l : List String),
      List.Perm (MediaController.fyAux rand l k) l := by
  intro k
  induction k with
  | zero => intro l; exact List.Perm.refl l
  | succ i ih =>
      intro l
      exact (ih _).trans (listSwap_perm l (i + 1) (min (rand (i + 1)) (i + 1)))

lemma randomShuffle_perm (rand : Nat → Nat) (l : List String) :
    List.Perm (MediaController.randomShuffle rand l) l :=
  fyAux_perm rand (l.length - 1) l

/-! ### Helper lemmas about `play` with no argument -/

lemma play_none_keeps_index (ex : String → Bool) (eu : String → String)
    (md : String → Rat) (now : Rat) (s : MediaController)
    (h0 : 0 ≤ s.current_track_index)
    (hL : s.current_track_index < (s.playlist.length : Int)) :
    ∃ s2 effs, MediaController.play ex eu md now s none = some (s2, effs)
      ∧ s2.current_track_index = s.current_track_index := by
  have hne : s.playlist ≠ [] := by
    intro hnil
    rw [hnil] at hL
    simp at hL
    omega
  have hidx : s.current_track_index ≠ -1 := by omega
  have htn : s.current_track_index.toNat < s.playlist.length := by omega
  have hget : s.playlist[s.current_track_index.toNat]?
      = some (s.playlist[s.current_track_index.toNat]) :=
    List.getElem?_eq_getElem htn
  unfold MediaController.play MediaController.playStage1 MediaController.pyIndex
  simp only [Option.getD_none, ne_eq, not_true_eq_false, if_neg, if_pos, hne,
    hidx, h0, hget, not_false_eq_true, ite_true, ite_false]
  by_cases hex : ex (s.playlist[s.current_track_index.toNat]) = false
  · simp [hex]
  · simp [hex]

lemma stop_keeps_index (s : MediaController) :
    (MediaController.stop s).1.current_track_index = s.current_track_index := by
  unfold MediaController.stop
  split <;> rfl

/-! ### Claims -/

/-- C1 (code bug in the source): from a fresh paused state with checkpoint
`p = 0`, running `play()` at time 0, `pause()` at 10, `play()` at 20,
`pause()` at 30 stores `last_position = 30`, not the claimed
`p + (t1 - t0) + (t3 - t2) = 20`: `play` back-dates `playback_start_time`
by the whole checkpoint ("Account for resuming") and `pause` then adds
`now - playback_start_time` on top of the checkpoint, double-counting it
on every pause/resume cycle. -/
theorem play_pause_resume_double_counts :
    playPausePlayPause 0 0 10 20 30 = some 30
    ∧ ((0 : Rat) + (10 - 0) + (30 - 20)) = 20
    ∧ (30 : Rat) ≠ 20 := by
  refine ⟨?_, by norm_num, by norm_num⟩
  norm_num +decide [playPausePlayPause, MediaController.play,
    MediaController.playStage1, MediaController.pause, MediaController.pyIndex,
    pausedAt, MediaController.initState, exAll, idPath, durZero]

/-- C2 counterexample: on a paused controller with checkpoint 5, `stop()` is
a no-op (the body is guarded by `if self.is_playing`), so `last_position`
stays 5 instead of the claimed reset to 0. -/
theorem stop_while_paused_keeps_position :
    pausedFive.is_playing = false
    ∧ (MediaController.stop pausedFive).1.last_position = 5
    ∧ (5 : Rat) ≠ 0 := by
  refine ⟨rfl, rfl, by norm_num⟩

/-- C2 amended: `stop()` resets `last_position` to 0 and clears `is_playing`
only when called while playing; while paused (or already stopped) it is a
no-op that preserves the checkpoint. `pause()` never resets the checkpoint:
it adds the elapsed interval when playing and changes nothing otherwise. -/
theorem stop_resets_only_when_playing (s : MediaController) (now : Rat) :
    (MediaController.stop s).1.last_position
        = (if s.is_playing then 0 else s.last_position)
    ∧ (MediaController.stop s).1.is_playing = false
    ∧ (MediaController.pause now s).1.last_position
        = (if s.is_playing then s.last_position + (now - s.playback_start_time)
           else s.last_position) := by
  cases h : s.is_playing <;>
    simp [MediaController.stop, MediaController.pause, h]

/-- C3 counterexample: after `play()` at time 0 on a 100-second file and
`pause()` at time 200, the stored checkpoint is 200 and
`get_playback_info()` returns `(200, 100)`: elapsed exceeds the positive
total, because the cap is applied only inside the `if self.is_playing`
branch. -/
theorem playback_info_exceeds_total_when_paused :
    MediaController.get_playback_info 300 overrunState = (200, 100)
    ∧ ¬ ((200 : Rat) ≤ 100) := by
  refine ⟨?_, by norm_num⟩
  norm_num +decide [MediaController.get_playback_info, overrunState,
    MediaController.play, MediaController.playStage1, MediaController.pause,
    MediaController.pyIndex, pausedAt, MediaController.initState, exAll,
    idPath, dur100]

/-- C3 amended: while `is_playing` is true and the metadata duration is
positive, `get_playback_info()` returns elapsed ≤ total (the live estimate is
capped); the cap is display-only — `get_playback_info` mutates no stored
field — but a paused controller returns the stored checkpoint uncapped. -/
theorem playback_info_capped_while_playing (s : MediaController) (now : Rat)
    (hp : s.is_playing = true) (hd : 0 < s.metadata_duration.getD 0) :
    (MediaController.get_playback_info now s).1
      ≤ (MediaController.get_playback_info now s).2 := by
  simp only [MediaController.get_playback_info, hp, if_true]
  split
  · exact le_refl _
  · rename_i hcond
    rcases not_and_or.mp hcond with h1 | h2
    · exact le_of_not_lt h1
    · exact absurd hd h2

/-- Closed witness for the C3 amended theorem at a concrete playing state. -/
theorem playback_info_capped_while_playing_witness :
    (MediaController.get_playback_info 500 playingOverrun).1
      ≤ (MediaController.get_playback_info 500 playingOverrun).2 :=
  playback_info_capped_while_playing playingOverrun 500 rfl
    (by norm_num [playingOverrun, MediaController.initState])

/-- C4 counterexample: with playlist `["a.mp3","b.mp3","c.mp3"]`, repeat off
and `current_track_index = -1` (no selection), `next_track` computes
`(-1 + 1) % 3 = 0` and stops ("Playlist finished.") instead of playing the
first track: the exhaustion check looks only at the new index, not at
whether the previous index was the last one. -/
theorem next_track_exhausts_from_unselected_index :
    (MediaController.next_track exAll idPath durZero 0
        threeTracksNoSelection).map Prod.snd
        = some MediaController.NavOutcome.finished
    ∧ MediaController.NavOutcome.finished ≠ MediaController.NavOutcome.played := by
  refine ⟨?_, by decide⟩
  norm_num +decide [MediaController.next_track, threeTracksNoSelection,
    MediaController.initState, MediaController.stop]

/-- C4 amended: for a non-empty playlist, `next_track` always moves to
`(current_track_index + 1) % length`; it signals exhaustion (stopping
instead of playing) exactly when that new index is 0 and repeat is off —
which happens both when the previous index was the last index and when it
was -1 — and otherwise (including the wrap with repeat on) plays the new
index. -/
theorem next_track_outcome_characterization (ex : String → Bool)
    (eu : String → String) (md : String → Rat) (now : Rat)
    (s : MediaController) (h : s.playlist ≠ []) :
    (MediaController.next_track ex eu md now s).map Prod.snd
        = some (if (s.current_track_index + 1) % (s.playlist.length : Int) = 0
                    ∧ s.repeat_mode = false
                then MediaController.NavOutcome.finished
                else MediaController.NavOutcome.played)
    ∧ (MediaController.next_track ex eu md now s).map
          (fun r => r.1.current_track_index)
        = some ((s.current_track_index + 1) % (s.playlist.length : Int)) := by
  have hL : 0 < (s.playlist.length : Int) := by
    exact_mod_cast List.length_pos.mpr h
  set newIdx := (s.current_track_index + 1) % (s.playlist.length : Int)
    with hni
  have h0 : 0 ≤ newIdx := Int.emod_nonneg _ (by omega)
  have hlt : newIdx < (s.playlist.length : Int) := Int.emod_lt_of_pos _ hL
  unfold MediaController.next_track
  by_cases hc : newIdx = 0 ∧ s.repeat_mode = false
  · simp [h, ← hni, hc, stop_keeps_index]
  · obtain ⟨s2, effs, hp, hidx⟩ :=
      play_none_keeps_index ex eu md now
        { s with current_track_index := newIdx } h0 hlt
    simp [h, ← hni, hc, hp, hidx]

/-- Closed witness for the C4 amended theorem at a concrete three-track
playlist positioned on index 0 (outcome: plays index 1). -/
theorem next_track_outcome_characterization_witness :
    ((MediaController.next_track exAll idPath durZero 0
        threeTracksAtZero).map Prod.snd
        = some (if (threeTracksAtZero.current_track_index + 1)
                      % (threeTracksAtZero.playlist.length : Int) = 0
                    ∧ threeTracksAtZero.repeat_mode = false
                then MediaController.NavOutcome.finished
                else MediaController.NavOutcome.played))
    ∧ (MediaController.next_track exAll idPath durZero 0
          threeTracksAtZero).map (fun r => r.1.current_track_index)
        = some ((threeTracksAtZero.current_track_index + 1)
                  % (threeTracksAtZero.playlist.length : Int)) :=
  next_track_outcome_characterization exAll idPath durZero 0
    threeTracksAtZero (by decide)

/-- C5 counterexample: `load_config` stores the persisted volume verbatim,
so a state file whose only entry is `volume: 150` constructs a controller
with volume 150, violating the claimed [0,100] invariant. -/
theorem load_config_keeps_out_of_range_volume :
    (MediaController.mkController
        (MediaController.ConfigFile.object volume150Config)).map
          MediaController.volume = some 150
    ∧ ¬ ((150 : Int) ≤ 100) :=
  ⟨rfl, by decide⟩

/-- C5 amended: `set_volume(level)` stores `max(0, min(100, level))` for
every integer level (so 150 ↦ 100 and -20 ↦ 0) and the result is always in
[0,100]; but `load_config` copies the persisted volume without clamping, so
the invariant does not survive loading an arbitrary state file. -/
theorem set_volume_clamps_but_load_config_does_not (s : MediaController)
    (level : Int) (c : MediaController.ConfigData) :
    (MediaController.set_volume s level).1.volume = max 0 (min 100 level)
    ∧ 0 ≤ (MediaController.set_volume s level).1.volume
    ∧ (MediaController.set_volume s level).1.volume ≤ 100
    ∧ (MediaController.set_volume s 150).1.volume = 100
    ∧ (MediaController.set_volume s (-20)).1.volume = 0
    ∧ (MediaController.load_config s
          (MediaController.ConfigFile.object c)).map MediaController.volume
        = some (c.volume.getD 50) := by
  refine ⟨rfl, ?_, ?_, by norm_num [MediaController.set_volume],
      by norm_num [MediaController.set_volume], rfl⟩ <;>
    · simp only [MediaController.set_volume]
      omega

/-- C6 counterexample: a state file whose content is valid JSON but not an
object (for example the literal `5`) passes `json.load`, and then
`config.get` raises `AttributeError`, which `load_config` does not catch
(only `json.JSONDecodeError` is): the constructor raises instead of
falling back to defaults. -/
theorem init_raises_on_decodable_non_object :
    MediaController.mkController MediaController.ConfigFile.nonObject = none :=
  rfl

/-- C6 amended: when the state file fails JSON decoding, or is absent, the
constructor does not raise and the resulting state equals the documented
defaults (volume 50, empty playlist, index -1, modes off); only a
decodable non-object file raises. -/
theorem init_defaults_on_undecodable :
    MediaController.mkController MediaController.ConfigFile.undecodable
        = some MediaController.initState
    ∧ MediaController.mkController MediaController.ConfigFile.absent
        = some MediaController.initState
    ∧ MediaController.initState.volume = 50
    ∧ MediaController.initState.playlist = []
    ∧ MediaController.initState.current_track_index = -1
    ∧ MediaController.initState.repeat_mode = false
    ∧ MediaController.initState.shuffle_mode = false :=
  ⟨rfl, rfl, rfl, rfl, rfl, rfl, rfl⟩

/-- C7 counterexample: loading an existing playlist file whose lines are all
comments or blank leaves the playlist empty but keeps the stale
`current_track_index = 2`: the code only sets the index in the non-empty
branch and never resets it to -1. -/
theorem load_playlist_empty_keeps_stale_index :
    (MediaController.load_playlist idPath idxTwoState
        ["#comment", "", "   "]).1.playlist = []
    ∧ (MediaController.load_playlist idPath idxTwoState
        ["#comment", "", "   "]).1.current_track_index = 2
    ∧ (2 : Int) ≠ -1 := by
  refine ⟨by decide, by decide, by decide⟩

/-- C7 amended: `load_playlist` on an existing file rebuilds the playlist as
exactly the stripped, non-blank, non-comment lines in file order (made
absolute), and sets `current_track_index` to 0 when the result is
non-empty; when the result is empty the index keeps its prior value, it is
not reset to -1. -/
theorem load_playlist_characterization (ab : String → String)
    (s : MediaController) (lines : List String) :
    (MediaController.load_playlist ab s lines).1.playlist
        = (MediaController.keptLines lines).map ab
    ∧ (MediaController.load_playlist ab s lines).1.current_track_index
        = (if (MediaController.keptLines lines).map ab = [] then
             s.current_track_index else 0) := by
  by_cases hp : (MediaController.keptLines lines).map ab = [] <;>
    simp [MediaController.load_playlist, hp]

/-- C8: for a non-empty playlist, `prev_track` always moves to
`(current_track_index - 1 + length) % length` — `repeat_mode` does not
appear in the computation — and in particular from index 0 it wraps to
`length - 1`. -/
theorem prev_track_always_wraps (ex : String → Bool) (eu : String → String)
    (md : String → Rat) (now : Rat) (s : MediaController)
    (h : s.playlist ≠ []) :
    (MediaController.prev_track ex eu md now s).map
        (fun r => r.1.current_track_index)
      = some ((s.current_track_index - 1 + s.playlist.length)
                % (s.playlist.length : Int))
    ∧ (s.current_track_index = 0 →
        (MediaController.prev_track ex eu md now s).map
            (fun r => r.1.current_track_index)
          = some ((s.playlist.length : Int) - 1)) := by
  have hL : 0 < (s.playlist.length : Int) := by
    exact_mod_cast List.length_pos.mpr h
  set newIdx := (s.current_track_index - 1 + s.playlist.length)
      % (s.playlist.length : Int) with hni
  have h0 : 0 ≤ newIdx := Int.emod_nonneg _ (by omega)
  have hlt : newIdx < (s.playlist.length : Int) := Int.emod_lt_of_pos _ hL
  obtain ⟨s2, effs, hp, hidx⟩ :=
    play_none_keeps_index ex eu md now
      { s with current_track_index := newIdx } h0 hlt
  have hmain : (MediaController.prev_track ex eu md now s).map
      (fun r => r.1.current_track_index) = some newIdx := by
    unfold MediaController.prev_track
    simp [h, ← hni, hp, hidx]
  refine ⟨hmain, ?_⟩
  intro hz
  rw [hmain, hni, hz]
  have harg : (0 - 1 + ((s.playlist.length : Int)))
      = (s.playlist.length : Int) - 1 := by ring
  rw [harg, Int.emod_eq_of_lt (by omega) (by omega)]

/-- Closed witness for C8 at a concrete three-track playlist on index 0. -/
theorem prev_track_always_wraps_witness :
    ((MediaController.prev_track exAll idPath durZero 0 threeTracksAtZero).map
        (fun r => r.1.current_track_index)
      = some ((threeTracksAtZero.current_track_index - 1
                + threeTracksAtZero.playlist.length)
                % (threeTracksAtZero.playlist.length : Int)))
    ∧ (threeTracksAtZero.current_track_index = 0 →
        (MediaController.prev_track exAll idPath durZero 0
            threeTracksAtZero).map (fun r => r.1.current_track_index)
          = some ((threeTracksAtZero.playlist.length : Int) - 1)) :=
  prev_track_always_wraps exAll idPath durZero 0 threeTracksAtZero (by decide)

/-- C9: `shuffle_playlist` permutes the playlist in place — for every
randomness source the multiset of entries is unchanged, every element
preserved exactly once — and resets `current_track_index` to 0. -/
theorem shuffle_playlist_preserves_multiset (rand : Nat → Nat)
    (s : MediaController) :
    ((MediaController.shuffle_playlist rand s).1.playlist : Multiset String)
        = (s.playlist : Multiset String)
    ∧ (MediaController.shuffle_playlist rand s).1.current_track_index = 0 :=
  ⟨Multiset.coe_eq_coe.mpr (randomShuffle_perm rand s.playlist), rfl⟩

/-- C10: `play(file_path)` on a path whose expansion does not exist reports
the error and returns with no external-player invocation, no notification
and no config save, and with `is_playing` and `playback_start_time`
unchanged — but the mutations performed before the existence check
(`current_file` to the expanded path, `current_track_index` to -1,
`last_position` to 0) are kept, not rolled back. -/
theorem play_missing_file_partial_mutation (ex : String → Bool)
    (eu : String → String) (md : String → Rat) (now : Rat)
    (s : MediaController) (fp : String) (hfp : fp ≠ "")
    (hex : ex (eu fp) = false) :
    MediaController.play ex eu md now s (some fp)
      = some ({ s with current_file := eu fp, current_track_index := -1,
                       last_position := 0 }, []) := by
  unfold MediaController.play MediaController.playStage1
  simp [hfp, hex]

/-- Closed witness for C10: playing a missing file from the default state. -/
theorem play_missing_file_partial_mutation_witness :
    MediaController.play exNone idPath durZero 0 MediaController.initState
        (some "missing.mp3")
      = some ({ MediaController.initState with
                  current_file := "missing.mp3"
                  current_track_index := -1
                  last_position := 0 }, []) :=
  play_missing_file_partial_mutation exNone idPath durZero 0
    MediaController.initState "missing.mp3" (by decide) rfl

end MediaPlayer
